import Mathlib

/-!
Shallow embedding of the parablock pipeline (registry, content cache,
generate-and-verify retry loop, dispatcher) from the repository sources
`registry.py`, `utils.py`, `processor.py`, `test_runner.py`, `executor.py`.
Python dicts are modelled as association lists with first-match lookup and
in-place update; Python class-level mutable state is threaded explicitly as
state records.  Machine-level digests (hashlib.md5) are implemented over
Nat with explicit reduction mod 2^32.
-/

namespace Parablock

/-- First-match lookup in an association list; models Python `dict.get`. -/
def alookup {α : Type} : List (String × α) → String → Option α
  | [], _ => none
  | (k0, v) :: rest, k => if k0 == k then some v else alookup rest k

/-- In-place update or append; models Python `dict` item assignment
(an existing key keeps its position, a new key is appended). -/
def ainsert {α : Type} : List (String × α) → String → α → List (String × α)
  | [], k, v => [(k, v)]
  | (k0, v0) :: rest, k, v =>
      if k0 == k then (k, v) :: rest else (k0, v0) :: ainsert rest k v

/-- Python truthiness of an `Optional[str]`: `None` and `""` are falsy. -/
def py_truthy : Option String → Bool
  | none => false
  | some s => !(s == "")

/-- Models Python `str.startswith`. -/
def py_startswith (s pre : String) : Bool :=
  pre.data.isPrefixOf s.data

/-! ## MD5 (hashlib.md5(...).hexdigest()), over `Nat` mod 2^32 -/

/-- UTF-8 encoding of one character (models Python `str.encode()`). -/
def utf8_char (c : Char) : List Nat :=
  let n := c.toNat
  if n < 128 then [n]
  else if n < 2048 then [192 + n / 64, 128 + n % 64]
  else if n < 65536 then [224 + n / 4096, 128 + (n / 64) % 64, 128 + n % 64]
  else [240 + n / 262144, 128 + (n / 4096) % 64, 128 + (n / 64) % 64, 128 + n % 64]

/-- UTF-8 bytes of a string. -/
def utf8_bytes (s : String) : List Nat :=
  s.data.foldr (fun c acc => utf8_char c ++ acc) []

/-- Left rotation of a 32-bit word represented as a `Nat` below 2^32. -/
def rotl32 (x c : Nat) : Nat :=
  ((x <<< c) ||| (x >>> (32 - c))) % 4294967296

/-- The 64 per-round shift amounts of MD5. -/
def md5_s : List Nat :=
  [7, 12, 17, 22, 7, 12, 17, 22, 7, 12, 17, 22, 7, 12, 17, 22,
   5, 9, 14, 20, 5, 9, 14, 20, 5, 9, 14, 20, 5, 9, 14, 20,
   4, 11, 16, 23, 4, 11, 16, 23, 4, 11, 16, 23, 4, 11, 16, 23,
   6, 10, 15, 21, 6, 10, 15, 21, 6, 10, 15, 21, 6, 10, 15, 21]

/-- The 64 sine-derived additive constants of MD5. -/
def md5_K : List Nat :=
  [0xd76aa478, 0xe8c7b756, 0x242070db, 0xc1bdceee,
   0xf57c0faf, 0x4787c62a, 0xa8304613, 0xfd469501,
   0x698098d8, 0x8b44f7af, 0xffff5bb1, 0x895cd7be,
   0x6b901122, 0xfd987193, 0xa679438e, 0x49b40821,
   0xf61e2562, 0xc040b340, 0x265e5a51, 0xe9b6c7aa,
   0xd62f105d, 0x02441453, 0xd8a1e681, 0xe7d3fbc8,
   0x21e1cde6, 0xc33707d6, 0xf4d50d87, 0x455a14ed,
   0xa9e3e905, 0xfcefa3f8, 0x676f02d9, 0x8d2a4c8a,
   0xfffa3942, 0x8771f681, 0x6d9d6122, 0xfde5380c,
   0xa4beea44, 0x4bdecfa9, 0xf6bb4b60, 0xbebfbc70,
   0x289b7ec6, 0xeaa127fa, 0xd4ef3085, 0x04881d05,
   0xd9d4d039, 0xe6db99e5, 0x1fa27cf8, 0xc4ac5665,
   0xf4292244, 0x432aff97, 0xab9423a7, 0xfc93a039,
   0x655b59c3, 0x8f0ccc92, 0xffeff47d, 0x85845dd1,
   0x6fa87e4f, 0xfe2ce6e0, 0xa3014314, 0x4e0811a1,
   0xf7537e82, 0xbd3af235, 0x2ad7d2bb, 0xeb86d391]

/-- One MD5 operation on the running state `(a, b, c, d)`;
`M` is the current 16-word block. -/
def md5_round (M : List Nat) (st4 : Nat × Nat × Nat × Nat) (i : Nat) :
    Nat × Nat × Nat × Nat :=
  let a := st4.1
  let b := st4.2.1
  let c := st4.2.2.1
  let d := st4.2.2.2
  let fg : Nat × Nat :=
    if i < 16 then ((b &&& c) ||| ((b ^^^ 0xffffffff) &&& d), i)
    else if i < 32 then ((d &&& b) ||| ((d ^^^ 0xffffffff) &&& c), (5 * i + 1) % 16)
    else if i < 48 then (b ^^^ c ^^^ d, (3 * i + 5) % 16)
    else (c ^^^ (b ||| (d ^^^ 0xffffffff)), (7 * i) % 16)
  let f := (fg.1 + a + md5_K.getD i 0 + M.getD fg.2 0) % 4294967296
  (d, (b + rotl32 f (md5_s.getD i 0)) % 4294967296, b, c)

/-- Processing of one 64-byte block. -/
def md5_block (st4 : Nat × Nat × Nat × Nat) (block : List Nat) :
    Nat × Nat × Nat × Nat :=
  let M := (List.range 16).map (fun j =>
    block.getD (4 * j) 0 + block.getD (4 * j + 1) 0 * 256
      + block.getD (4 * j + 2) 0 * 65536 + block.getD (4 * j + 3) 0 * 16777216)
  let r := (List.range 64).foldl (md5_round M) st4
  ((st4.1 + r.1) % 4294967296, (st4.2.1 + r.2.1) % 4294967296,
   (st4.2.2.1 + r.2.2.1) % 4294967296, (st4.2.2.2 + r.2.2.2) % 4294967296)

/-- MD5 padding: a 0x80 byte, zeros to 56 mod 64, and the 64-bit
little-endian bit length. -/
def md5_pad (msg : List Nat) : List Nat :=
  let bitLen := (msg.length * 8) % (2 ^ 64)
  let padLen := (120 - (msg.length + 1) % 64) % 64
  msg ++ [128] ++ List.replicate padLen 0
    ++ (List.range 8).map (fun i => (bitLen >>> (8 * i)) % 256)

/-- Split a byte list into successive 64-byte chunks. -/
def chunks64 : List Nat → List (List Nat)
  | [] => []
  | x :: xs => ((x :: xs).take 64) :: chunks64 ((x :: xs).drop 64)
termination_by l => l.length
decreasing_by simp [List.length_drop]; omega

/-- MD5 initial state. -/
def md5_init : Nat × Nat × Nat × Nat :=
  (1732584193, 4023233417, 2562383102, 271733878)

/-- Little-endian byte decomposition of a 32-bit word. -/
def word_le_bytes (w : Nat) : List Nat :=
  [w % 256, (w >>> 8) % 256, (w >>> 16) % 256, (w >>> 24) % 256]

/-- The 16 digest bytes of MD5 over a byte message. -/
def md5_bytes (msg : List Nat) : List Nat :=
  let r := (chunks64 (md5_pad msg)).foldl md5_block md5_init
  word_le_bytes r.1 ++ word_le_bytes r.2.1 ++ word_le_bytes r.2.2.1
    ++ word_le_bytes r.2.2.2

/-- Lower-case hexadecimal digits. -/
def hex_digits : List Char := "0123456789abcdef".data

/-- Two lower-case hex characters of one byte. -/
def byte_hex (b : Nat) : List Char :=
  [hex_digits.getD (b / 16) '0', hex_digits.getD (b % 16) '0']

/-- Models Python `hashlib.md5(x.encode()).hexdigest()`. -/
def md5_hexdigest (s : String) : String :=
  String.mk ((md5_bytes (utf8_bytes s)).foldr (fun b acc => byte_hex b ++ acc) [])

/-! ## Specification hash (utils.get_function_hash, registry.FunctionMetadata.get_hash) -/

/-- The digest input `f"{docstring}|{str(signature)}"` built by both hash
functions in the source. -/
def hash_input (docstring signature : String) : String :=
  docstring ++ "|" ++ signature

/-- Models `utils.get_function_hash`: the MD5 hex digest of
`f"{docstring}|{signature}"`.  The Python `signature` argument is an
`inspect.Signature` object; only its `str()` rendering enters the hash, so it
is embedded as that string. -/
def get_function_hash (docstring signature : String) : String :=
  md5_hexdigest (hash_input docstring signature)

/-! ## FunctionRegistry (registry.py) -/

/-- Models `registry.FunctionMetadata`.  The Python `func : Callable` field is
opaque at this level; the parts of it the source reads — `func.__name__`,
`func.__module__` (equal to `name` and `module` as registered) and the
parameter names of `inspect.signature(func)` — are carried as `name`,
`module` and `param_names`.  `signature` is the `str()` rendering of the
signature object (the form used by the hash). -/
structure FunctionMetadata where
  name : String
  module : String
  source : String
  docstring : String
  signature : String
  param_names : List String
  frozen : Bool
  implementation : Option String := none
deriving DecidableEq, Repr

/-- Models `FunctionMetadata.get_full_name`. -/
def FunctionMetadata.get_full_name (m : FunctionMetadata) : String :=
  m.module ++ "." ++ m.name

/-- Models `FunctionMetadata.get_hash`: the MD5 hex digest of
`f"{self.docstring}|{str(self.signature)}"`. -/
def FunctionMetadata.get_hash (m : FunctionMetadata) : String :=
  md5_hexdigest (m.docstring ++ "|" ++ m.signature)

/-- The three class-level dicts of `registry.FunctionRegistry`:
`_registry`, `_implementations` and `_needs_generation`. -/
structure RegistryState where
  registry : List (String × FunctionMetadata)
  implementations : List (String × String)
  needsGen : List (String × Bool)
deriving DecidableEq, Repr

/-- The empty registry (initial class state). -/
def RegistryState.empty : RegistryState :=
  { registry := [], implementations := [], needsGen := [] }

/-- Models `FunctionRegistry.register`. -/
def register (reg : RegistryState) (name module source docstring signature : String)
    (param_names : List String) (frozen : Bool) : RegistryState :=
  let m : FunctionMetadata :=
    { name := name, module := module, source := source, docstring := docstring,
      signature := signature, param_names := param_names, frozen := frozen,
      implementation := none }
  { reg with registry := ainsert reg.registry (module ++ "." ++ name) m }

/-- Models `FunctionRegistry.get_all`: the registered metadata values. -/
def get_all (reg : RegistryState) : List FunctionMetadata :=
  reg.registry.map (fun p => p.2)

/-- Models `FunctionRegistry.store_implementation`: updates the metadata's
`implementation` field when the name is registered, and always records the
text in the `_implementations` side table. -/
def store_implementation (reg : RegistryState) (full_name implementation : String) :
    RegistryState :=
  { reg with
    registry :=
      match alookup reg.registry full_name with
      | some m => ainsert reg.registry full_name { m with implementation := some implementation }
      | none => reg.registry,
    implementations := ainsert reg.implementations full_name implementation }

/-- Models `FunctionRegistry.get_implementation`: the `_implementations` side
table is consulted first (by key presence); otherwise the registered
metadata's `implementation` is returned subject to Python truthiness
(an empty string there counts as absent). -/
def get_implementation (reg : RegistryState) (full_name : String) : Option String :=
  match alookup reg.implementations full_name with
  | some implementation => some implementation
  | none =>
    match alookup reg.registry full_name with
    | some m =>
      match m.implementation with
      | some implementation =>
          if implementation == "" then none else some implementation
      | none => none
    | none => none

/-- Models `FunctionRegistry.needs_generation`, returning the decision
together with the updated registry state (the `_needs_generation` memo is a
side effect in the source). -/
def needs_generation (reg : RegistryState) (full_name : String)
    (cached_hash : Option String) : Bool × RegistryState :=
  match alookup reg.needsGen full_name with
  | some b => (b, reg)
  | none =>
    match alookup reg.registry full_name with
    | none => (false, { reg with needsGen := ainsert reg.needsGen full_name false })
    | some metadata =>
      if metadata.frozen then
        (false, { reg with needsGen := ainsert reg.needsGen full_name false })
      else
        match cached_hash with
        | none => (true, { reg with needsGen := ainsert reg.needsGen full_name true })
        | some h =>
          let result := metadata.get_hash != h
          (result, { reg with needsGen := ainsert reg.needsGen full_name result })

/-- Models `FunctionRegistry.clear_module`: registry entries are dropped by
`metadata.module.startswith(module_name)`, implementations and memos by
`full_name.startswith(module_name)`. -/
def clear_module (reg : RegistryState) (module_name : String) : RegistryState :=
  { registry := reg.registry.filter (fun p => !(py_startswith p.2.module module_name)),
    implementations := reg.implementations.filter (fun p => !(py_startswith p.1 module_name)),
    needsGen := reg.needsGen.filter (fun p => !(py_startswith p.1 module_name)) }

/-! ## Cache (utils.Cache) -/

/-- One record of a cache partition: the persisted JSON objects may carry or
omit the `"hash"` and `"implementation"` keys, so both are optional.
`Cache.store` always writes both. -/
structure CacheRecord where
  hash : Option String
  implementation : Option String
deriving DecidableEq, Repr

/-- The whole mutable state of the process: the registry class state, the
cache class state (`Cache._cache` flat map and `Cache._loaded_modules`), and
the persisted cache partitions keyed by cache file name (the directory
`.parablock/cache/`). -/
structure SystemState where
  reg : RegistryState
  cache : List (String × CacheRecord)
  loaded : List String
  files : List (String × List (String × CacheRecord))
deriving DecidableEq, Repr

/-- Models `Cache.module_name_to_cache_file`: the Python
`module_name.replace(".", "_") + ".json"` — a single-character pattern
replace, i.e. a character map. -/
def module_name_to_cache_file (module_name : String) : String :=
  String.mk (module_name.data.map (fun c => if c = '.' then '_' else c)) ++ ".json"

/-- Models `Cache.get`. -/
def cache_get (st : SystemState) (func_name : String) : Option CacheRecord :=
  alookup st.cache func_name

/-- Models `Cache.store`. -/
def cache_store (c : List (String × CacheRecord)) (func_name func_hash implementation : String) :
    List (String × CacheRecord) :=
  ainsert c func_name { hash := some func_hash, implementation := some implementation }

/-- Models `Cache.load`: a no-op when the module is already marked loaded;
otherwise the persisted partition (if any) is merged into the flat in-memory
map, every record carrying an `"implementation"` key is pushed into the
registry via `store_implementation`, and the module is marked loaded (also
when no file exists).  File-read failures (the `except` path, treated as no
cache) are outside this embedding: partitions are modelled as already
parsed. -/
def cache_load (st : SystemState) (module_name : String) : SystemState :=
  if st.loaded.contains module_name then st
  else
    match alookup st.files (module_name_to_cache_file module_name) with
    | some module_cache =>
        { st with
          cache := module_cache.foldl (fun c p => ainsert c p.1 p.2) st.cache,
          reg := module_cache.foldl (fun r p =>
              match p.2.implementation with
              | some impl => store_implementation r p.1 impl
              | none => r) st.reg,
          loaded := module_name :: st.loaded }
    | none => { st with loaded := module_name :: st.loaded }

/-- Models `Cache.save`: the flat in-memory map filtered to keys starting
with `module_name + "."` is written to the partition file named by
`module_name_to_cache_file`.  Write failures (logged and ignored in the
source) are not modelled. -/
def cache_save (st : SystemState) (module_name : String) : SystemState :=
  let module_cache := st.cache.filter (fun p => py_startswith p.1 (module_name ++ "."))
  { st with files := ainsert st.files (module_name_to_cache_file module_name) module_cache }

/-! ## textwrap helpers used by test_runner.py and executor.py -/

/-- Whitespace characters considered by `textwrap.dedent` margins. -/
def is_ws_char (c : Char) : Bool :=
  c == ' ' || c == '\t'

/-- Longest common prefix of two character lists. -/
def common_prefix_chars : List Char → List Char → List Char
  | a :: as, b :: bs => if a = b then a :: common_prefix_chars as bs else []
  | _, _ => []

/-- Split a character list at a separator character; models Python line
splitting (`"a\nb" ↦ ["a", "b"]`, a trailing separator yields a trailing
empty piece). -/
def split_lines_char (sep : Char) : List Char → List (List Char)
  | [] => [[]]
  | c :: rest =>
      let r := split_lines_char sep rest
      if c = sep then [] :: r
      else
        match r with
        | [] => [[c]]
        | h :: t => (c :: h) :: t

/-- Join character lines with a separator character. -/
def join_lines (sep : Char) : List (List Char) → List Char
  | [] => []
  | [l] => l
  | l :: ls => l ++ sep :: join_lines sep ls

/-- Join strings with a separator string; models `sep.join(parts)`. -/
def join_with (sep : String) : List String → String
  | [] => ""
  | [x] => x
  | x :: xs => x ++ sep ++ join_with sep xs

/-- Models `textwrap.dedent`: whitespace-only lines are normalised to empty,
then the longest common leading whitespace of the remaining non-empty lines
is removed from every line that carries it. -/
def textwrap_dedent (text : String) : String :=
  let lines := (split_lines_char '\n' text.data).map (fun l =>
    if !l.isEmpty && l.all is_ws_char then [] else l)
  let indents := (lines.filter (fun l => !l.isEmpty)).map (fun l => l.takeWhile is_ws_char)
  let margin :=
    match indents with
    | [] => ([] : List Char)
    | i :: is => is.foldl common_prefix_chars i
  if margin.isEmpty then String.mk (join_lines '\n' lines)
  else String.mk (join_lines '\n' (lines.map (fun l =>
    if margin.isPrefixOf l then l.drop margin.length else l)))

/-- Models `textwrap.indent text pfx`: the prefix is added to every line
that contains non-whitespace content. -/
def textwrap_indent (text pfx : String) : String :=
  String.mk (join_lines '\n' ((split_lines_char '\n' text.data).map (fun l =>
    if l.all Char.isWhitespace then l else pfx.data ++ l)))

/-! ## TestRunner (test_runner.py) -/

/-- Outcome of handing a Python source text to the interpreter — the
behaviour of `exec(test_func_source, globals)` followed by
`globals["run_test"]()` inside the `try` block of `TestRunner.run_test`.
Executing untrusted generated Python is outside a shallow embedding, so the
interpreter is a parameter producing either normal completion or a raised
exception described by `exc`. -/
inductive ExecOutcome where
  | ok : ExecOutcome
  | raised : String → ExecOutcome
deriving DecidableEq, Repr

/-- A Python interpreter boundary: source text to outcome. -/
def PyExec : Type := String → ExecOutcome

/-- Modelled from Python's `traceback.format_exc()`: its result always
begins with the non-empty header line `Traceback (most recent call last):`
followed by the exception details. -/
def format_exc (exc : String) : String :=
  "Traceback (most recent call last):\n" ++ exc

/-- The declared parameter names with the reserved self-reference name
`"fn"` excluded — `[p for p in signature.parameters if p != "fn"]`. -/
def visible_params (sig_param_names : List String) : List String :=
  sig_param_names.filter (fun p => p != "fn")

/-- The exact test harness source that `TestRunner.run_test` assembles: the
candidate implementation becomes the body of `implementation_func`, bound to
the declared parameters excluding `fn`, and a stand-in `fn` is defined that
re-enters the same candidate recursively; the extracted assertion block runs
inside `run_test`. -/
def run_test_source (sig_param_names : List String) (implementation test_code : String) :
    String :=
  let implementation := textwrap_dedent implementation
  let test_code := textwrap_dedent test_code
  let param_names := visible_params sig_param_names
  let params_str := join_with ", " param_names
  let fn_params_str := join_with ", " ("None" :: param_names)
  let implementation_indented := textwrap_indent implementation "        "
  let test_code_indented := textwrap_indent test_code "    "
  "\ndef test_implementation(fn, " ++ params_str ++ "):\n    def implementation_func("
    ++ params_str ++ "):\n" ++ implementation_indented
    ++ "\n        \n    return implementation_func(" ++ params_str
    ++ ")\n\ndef run_test():\n    # Define a mock fn function that calls the implementation\n    def fn("
    ++ params_str ++ "):\n        return test_implementation(" ++ fn_params_str
    ++ ")\n    \n    # Run the test code\n" ++ test_code_indented
    ++ "\n    \n    return True  # If we got here, tests passed\n"

/-- Models `TestRunner.run_test`: builds the harness source, hands it to the
interpreter, and reports `(True, None)` on normal completion or
`(False, traceback.format_exc())` when anything raises. -/
def run_test (pyexec : PyExec) (sig_param_names : List String)
    (implementation test_code : String) : Bool × Option String :=
  match pyexec (run_test_source sig_param_names implementation test_code) with
  | .ok => (true, none)
  | .raised exc => (false, some (format_exc exc))

/-! ## CodeGenerator boundary (code_generator.py) and Processor (processor.py) -/

/-- The data `Processor._generate_and_test` passes to
`CodeGenerator.generate_implementation` on one call. -/
structure GenRequest where
  name : String
  docstring : String
  signature : String
  test_code : String
  error_feedback : Option String
deriving DecidableEq, Repr

/-- External collaborators of a processing pass.  `oracle n req` is the
outcome `(success, implementation)` of the `n`-th
`generate_implementation` call made for the current function in this pass
(the index models the call counter of a stateful stub; the transport inside
`generate_implementation` is out of scope).  `pyexec` is the interpreter
boundary used by `TestRunner.run_test`.  `extract_test_code` stands for
`TestRunner.extract_test_code`, whose Python-AST body extraction is outside
a shallow embedding. -/
structure GenEnv where
  oracle : Nat → GenRequest → Bool × String
  pyexec : PyExec
  extract_test_code : String → String

/-- The request built on an attempt with feedback `fb`. -/
def gen_req (m : FunctionMetadata) (test_code : String) (fb : Option String) : GenRequest :=
  { name := m.name, docstring := m.docstring, signature := m.signature,
    test_code := test_code, error_feedback := fb }

/-- Result of `Processor._generate_and_test`: the registry state, the number
of oracle calls made, the success flag and the returned error message. -/
structure GenResult where
  reg : RegistryState
  calls : Nat
  ok : Bool
  error_message : Option String
deriving Repr

/-- The retry loop of `Processor._generate_and_test`, by remaining fuel
(`max_attempts - attempt`).  On oracle failure the function is aborted; on a
passing test the implementation is stored in the registry and the loop
stops; on a failing test the diagnostic becomes the next attempt's
feedback. -/
def generate_and_test_go (env : GenEnv) (m : FunctionMetadata) (test_code : String) :
    Nat → Nat → Option String → RegistryState → GenResult
  | 0, attempt, error_feedback, reg =>
      { reg := reg, calls := attempt, ok := false, error_message := error_feedback }
  | fuel + 1, attempt, error_feedback, reg =>
      let gen := env.oracle attempt (gen_req m test_code error_feedback)
      if gen.1 then
        let implementation := gen.2
        let tr := run_test env.pyexec m.param_names implementation test_code
        if tr.1 then
          { reg := store_implementation reg (m.module ++ "." ++ m.name) implementation,
            calls := attempt + 1, ok := true, error_message := none }
        else
          generate_and_test_go env m test_code fuel (attempt + 1) tr.2 reg
      else
        { reg := reg, calls := attempt + 1, ok := false,
          error_message := some ("Failed to generate implementation after "
            ++ toString (attempt + 1) ++ " attempts") }

/-- Models `Processor._generate_and_test` with its `max_attempts = 3` and
initially absent feedback. -/
def generate_and_test (env : GenEnv) (m : FunctionMetadata) (test_code : String)
    (reg : RegistryState) : GenResult :=
  generate_and_test_go env m test_code 3 0 none reg

/-- Result of processing: the system state, the aggregated success flag and
the number of oracle calls made. -/
structure ProcResult where
  st : SystemState
  ok : Bool
  calls : Nat
deriving Repr

/-- The per-function body of the loop in `Processor.process_module`
(lines 85-137): hash computation, cache lookup, the `needs_generation`
check, and either cache-hit adoption or the generate-and-test path followed
by a cache store of a truthy implementation. -/
def process_function (env : GenEnv) (st : SystemState) (m : FunctionMetadata) : ProcResult :=
  let full_name := m.get_full_name
  let func_hash := get_function_hash m.docstring m.signature
  let cache_entry := cache_get st full_name
  let cached_hash := cache_entry.bind (fun e => e.hash)
  let ng := needs_generation st.reg full_name cached_hash
  if ng.1 then
    let test_code := env.extract_test_code m.source
    let gr := generate_and_test env m test_code ng.2
    if gr.ok then
      match get_implementation gr.reg full_name with
      | some impl =>
          if impl == "" then { st := { st with reg := gr.reg }, ok := true, calls := gr.calls }
          else
            let st2 := { st with reg := gr.reg, cache := cache_store st.cache full_name func_hash impl }
            { st := st2, ok := true, calls := gr.calls }
      | none => { st := { st with reg := gr.reg }, ok := true, calls := gr.calls }
    else { st := { st with reg := gr.reg }, ok := false, calls := gr.calls }
  else
    match cache_entry with
    | some entry =>
        let implementation := entry.implementation.getD ""
        { st := { st with reg := store_implementation ng.2 full_name implementation },
          ok := true, calls := 0 }
    | none => { st := { st with reg := ng.2 }, ok := false, calls := 0 }

/-- The functions a pass over `module_name` selects:
`f.module == module_name or f.module.startswith(module_name + ".")`. -/
def module_functions (reg : RegistryState) (module_name : String) : List FunctionMetadata :=
  (get_all reg).filter (fun f =>
    f.module == module_name || py_startswith f.module (module_name ++ "."))

/-- One step of the fold over a module's functions, accumulating the
all-functions success flag and the total number of oracle calls. -/
def process_step (env : GenEnv) (acc : ProcResult) (f : FunctionMetadata) : ProcResult :=
  let r := process_function env acc.st f
  { st := r.st, ok := acc.ok && r.ok, calls := acc.calls + r.calls }

/-- Models `Processor.process_module`: loads the module's cache partition,
selects the module's registered functions, processes each in order, and
saves the cache partition (the source returns early, without saving, when no
functions are found).  The `importlib.import_module` call, console output,
progress bar and the surrounding `try/except` are outside this embedding:
registrations triggered by the import are part of the incoming state. -/
def process_module (env : GenEnv) (st : SystemState) (module_name : String) : ProcResult :=
  let st1 := cache_load st module_name
  let functions := module_functions st1.reg module_name
  if functions.isEmpty then { st := st1, ok := true, calls := 0 }
  else
    let r := functions.foldl (process_step env) { st := st1, ok := true, calls := 0 }
    { st := cache_save r.st module_name, ok := r.ok, calls := r.calls }

/-- The reload step of `FileChangeHandler._reload_module` (processor.py line
270) invokes only `FunctionRegistry.clear_module`; the cache class state —
including `Cache._loaded_modules` — is untouched. -/
def clear_module_sys (st : SystemState) (module_name : String) : SystemState :=
  { st with reg := clear_module st.reg module_name }

/-! ## Executor (executor.py) -/

/-- Outcome of a dispatched call: either the dynamically built callable
(exposing the non-reserved parameters, with the resolved implementation as
its body) is about to be executed with the caller's arguments, or a
`RuntimeError` is raised to the caller.  Executing the built callable is
outside the embedding, so the `executed` constructor carries what the source
would `exec`. -/
inductive DispatchResult where
  | executed : List String → String → DispatchResult
  | error : String → DispatchResult
deriving DecidableEq, Repr

/-- Models `".".join(module_name.split(".")[:-1])`. -/
def parent_module_of (module_name : String) : String :=
  join_with "." (((split_lines_char '.' module_name.data).map String.mk).dropLast)

/-- Models the wrapper built by `executor.pararun` on a real invocation:
load the owning module's cache, resolve the implementation (Python
truthiness: empty text counts as absent), on failure load the parent
module's cache one level up and retry, and raise a `RuntimeError` with
remediation guidance when still unresolved. -/
def pararun_invoke (st : SystemState) (module_name func_name : String)
    (sig_param_names : List String) : SystemState × DispatchResult :=
  let full_name := module_name ++ "." ++ func_name
  let st1 := cache_load st module_name
  let impl1 := get_implementation st1.reg full_name
  let next :=
    if py_truthy impl1 then (st1, impl1)
    else
      let parent_module := parent_module_of module_name
      if parent_module != "" then
        let st2 := cache_load st1 parent_module
        (st2, get_implementation st2.reg full_name)
      else (st1, impl1)
  match next.2 with
  | some impl =>
      if impl == "" then
        (next.1, .error ("No implementation available for " ++ full_name
          ++ ". Run \x27make process\x27 to generate an implementation."))
      else (next.1, .executed (visible_params sig_param_names) impl)
  | none =>
      (next.1, .error ("No implementation available for " ++ full_name
        ++ ". Run \x27make process\x27 to generate an implementation."))

/-! ## Association-list lemmas -/

theorem alookup_ainsert_self {α : Type} (l : List (String × α)) (k : String) (v : α) :
    alookup (ainsert l k v) k = some v := by
  induction l with
  | nil => simp [ainsert, alookup]
  | cons p rest ih =>
    by_cases h : p.1 == k
    · simp [ainsert, alookup, h]
    · simp only [ainsert]
      rw [show (p.1, p.2) = p from rfl]
      simp [alookup, h, ih]

theorem alookup_ainsert_ne {α : Type} (l : List (String × α)) (k k' : String) (v : α)
    (h : k' ≠ k) : alookup (ainsert l k v) k' = alookup l k' := by
  have hbeq : (k == k') = false := by
    simp only [beq_eq_false_iff_ne, ne_eq]
    exact fun hh => h hh.symm
  induction l with
  | nil => simp [ainsert, alookup, hbeq]
  | cons p rest ih =>
    by_cases hp : p.1 == k
    · have hp1 : p.1 = k := by exact beq_iff_eq.mp hp
      simp [ainsert, alookup, hp, hbeq, hp1]
    · simp only [ainsert]
      rw [show (p.1, p.2) = p from rfl]
      by_cases hp' : p.1 == k'
      · simp [alookup, hp, hp']
      · simp [alookup, hp, hp', ih]

theorem alookup_filter_key {α : Type} (l : List (String × α)) (f : String → Bool)
    (k : String) :
    alookup (l.filter (fun p => f p.1)) k = if f k then alookup l k else none := by
  induction l with
  | nil => simp [alookup]
  | cons p rest ih =>
    by_cases hp : p.1 == k
    · have hp1 : p.1 = k := by exact beq_iff_eq.mp hp
      by_cases hf : f k
      · simp [List.filter_cons, hp1, hf, alookup]
      · simp [List.filter_cons, hp1, hf, alookup, ih]
    · by_cases hf : f p.1
      · simp [List.filter_cons, hf, alookup, hp, ih]
      · simp [List.filter_cons, hf, alookup, hp, ih]

theorem alookup_filter_keep {α : Type} (l : List (String × α)) (f : String × α → Bool)
    (k : String) (v : α) (hl : alookup l k = some v) (hf : f (k, v) = true) :
    alookup (l.filter f) k = some v := by
  induction l with
  | nil => simp [alookup] at hl
  | cons p rest ih =>
    by_cases hp : p.1 == k
    · have hp1 : p.1 = k := by exact beq_iff_eq.mp hp
      have hv : p.2 = v := by
        simp [alookup, hp] at hl
        exact hl
      have hpv : p = (k, v) := by
        cases p
        simp_all
      subst hpv
      simp [List.filter_cons, hf, alookup]
    · have hl' : alookup rest k = some v := by
        simpa [alookup, hp] using hl
      by_cases hkeep : f p
      · simp [List.filter_cons, hkeep, alookup, hp, ih hl']
      · simp [List.filter_cons, hkeep, ih hl']

/-! ## Claim theorems -/

/-- Claim C5: the specification hash is the MD5 digest of exactly the pair
(docstring text, signature rendering), hence deterministic (a pure function
of that pair, identical across process restarts); the two hash computations
in the source (`utils.get_function_hash` and `FunctionMetadata.get_hash`)
agree; and any change to either component — in particular any
single-character change — changes the digest input (so the hash changes at
the digest's standard strength, the collision caveat the specification
itself accepts). -/
theorem c5_hash_deterministic :
    (∀ d s : String, get_function_hash d s = md5_hexdigest (hash_input d s)) ∧
    (∀ m : FunctionMetadata, m.get_hash = get_function_hash m.docstring m.signature) ∧
    (∀ d1 d2 s : String, d1 ≠ d2 → hash_input d1 s ≠ hash_input d2 s) ∧
    (∀ d s1 s2 : String, s1 ≠ s2 → hash_input d s1 ≠ hash_input d s2) := by
  refine ⟨fun d s => rfl, fun m => rfl, ?_, ?_⟩
  · intro d1 d2 s hne heq
    apply hne
    have h := congrArg String.data heq
    simp only [hash_input, String.data_append] at h
    exact String.ext (List.append_cancel_right (List.append_cancel_right h))
  · intro d s1 s2 hne heq
    apply hne
    have h := congrArg String.data heq
    simp only [hash_input, String.data_append] at h
    exact String.ext (List.append_cancel_left h)

/-- Witness for C5 at concrete inputs: a one-character docstring change and
a one-character signature change both change the digest input. -/
theorem c5_hash_deterministic_witness :
    "doc a" ≠ "doc b" ∧ hash_input "doc a" "(fn, n)" ≠ hash_input "doc b" "(fn, n)" ∧
    "(fn, n)" ≠ "(fn, m)" ∧ hash_input "doc a" "(fn, n)" ≠ hash_input "doc a" "(fn, m)" :=
  ⟨by decide, c5_hash_deterministic.2.2.1 "doc a" "doc b" "(fn, n)" (by decide),
   by decide, c5_hash_deterministic.2.2.2 "doc a" "(fn, n)" "(fn, m)" (by decide)⟩

/-- A memoized decision short-circuits `needs_generation`. -/
theorem needs_generation_memo_hit (reg : RegistryState) (full_name : String)
    (ch : Option String) (b : Bool) (h : alookup reg.needsGen full_name = some b) :
    needs_generation reg full_name ch = (b, reg) := by
  simp [needs_generation, h]

/-- The memo recorded by a `needs_generation` call is its own result. -/
theorem needs_generation_memo_after (reg : RegistryState) (full_name : String)
    (ch : Option String) :
    alookup (needs_generation reg full_name ch).2.needsGen full_name
      = some (needs_generation reg full_name ch).1 := by
  cases hmem : alookup reg.needsGen full_name with
  | some b => simp [needs_generation, hmem]
  | none =>
    cases hreg : alookup reg.registry full_name with
    | none => simp [needs_generation, hmem, hreg, alookup_ainsert_self]
    | some m =>
      by_cases hf : m.frozen
      · simp [needs_generation, hmem, hreg, hf, alookup_ainsert_self]
      · cases ch with
        | none => simp [needs_generation, hmem, hreg, hf, alookup_ainsert_self]
        | some h => simp [needs_generation, hmem, hreg, hf, alookup_ainsert_self]

/-- Claim C3: the `needs_generation` contract — the memoized decision is
returned unchanged when present; otherwise the decision is `false` for an
unregistered or frozen name, `true` when no cached hash exists, and
`spec hash != cached hash` otherwise; every non-memoized call memoizes its
decision under the full name, later calls return the memoized decision for
any cached-hash argument, and `clear_module` removes the memo for names
within the cleared namespace. -/
theorem c3_needs_generation_contract :
    (∀ (reg : RegistryState) (full_name : String) (ch : Option String) (b : Bool),
        alookup reg.needsGen full_name = some b →
        needs_generation reg full_name ch = (b, reg)) ∧
    (∀ (reg : RegistryState) (full_name : String) (ch : Option String),
        alookup reg.needsGen full_name = none →
        alookup reg.registry full_name = none →
        needs_generation reg full_name ch =
          (false, { reg with needsGen := ainsert reg.needsGen full_name false })) ∧
    (∀ (reg : RegistryState) (full_name : String) (ch : Option String) (m : FunctionMetadata),
        alookup reg.needsGen full_name = none →
        alookup reg.registry full_name = some m → m.frozen = true →
        needs_generation reg full_name ch =
          (false, { reg with needsGen := ainsert reg.needsGen full_name false })) ∧
    (∀ (reg : RegistryState) (full_name : String) (m : FunctionMetadata),
        alookup reg.needsGen full_name = none →
        alookup reg.registry full_name = some m → m.frozen = false →
        needs_generation reg full_name none =
          (true, { reg with needsGen := ainsert reg.needsGen full_name true })) ∧
    (∀ (reg : RegistryState) (full_name : String) (m : FunctionMetadata) (h : String),
        alookup reg.needsGen full_name = none →
        alookup reg.registry full_name = some m → m.frozen = false →
        needs_generation reg full_name (some h) =
          ((m.get_hash != h),
           { reg with needsGen := ainsert reg.needsGen full_name (m.get_hash != h) })) ∧
    (∀ (reg : RegistryState) (full_name : String) (ch ch' : Option String),
        alookup (needs_generation reg full_name ch).2.needsGen full_name
          = some (needs_generation reg full_name ch).1 ∧
        needs_generation (needs_generation reg full_name ch).2 full_name ch'
          = needs_generation reg full_name ch) ∧
    (∀ (reg : RegistryState) (full_name module_name : String),
        py_startswith full_name module_name = true →
        alookup (clear_module reg module_name).needsGen full_name = none) := by
  refine ⟨?_, ?_, ?_, ?_, ?_, ?_, ?_⟩
  · intro reg full_name ch b hmem
    simp [needs_generation, hmem]
  · intro reg full_name ch hmem hreg
    simp [needs_generation, hmem, hreg]
  · intro reg full_name ch m hmem hreg hf
    cases ch <;> simp [needs_generation, hmem, hreg, hf]
  · intro reg full_name m hmem hreg hf
    simp [needs_generation, hmem, hreg, hf]
  · intro reg full_name m h hmem hreg hf
    simp [needs_generation, hmem, hreg, hf]
  · intro reg full_name ch ch'
    refine ⟨needs_generation_memo_after reg full_name ch, ?_⟩
    rw [needs_generation_memo_hit _ _ ch' _ (needs_generation_memo_after reg full_name ch)]
  · intro reg full_name module_name hpre
    have h := alookup_filter_key reg.needsGen
      (fun s => !(py_startswith s module_name)) full_name
    simpa [clear_module, hpre] using h

/-- Witness for C3 at concrete inputs: an unregistered name memoizes
`false`; a registered non-frozen name with no cached hash memoizes `true`;
the memoized decision is returned by a later call with a different
cached-hash argument. -/
theorem c3_needs_generation_contract_witness :
    (alookup (RegistryState.empty).needsGen "m.f" = none ∧
     alookup (RegistryState.empty).registry "m.f" = none ∧
     needs_generation RegistryState.empty "m.f" (some "h0") =
       (false, { RegistryState.empty with needsGen := [("m.f", false)] })) ∧
    (alookup (RegistryState.mk [] [] [("m.f", true)]).needsGen "m.f" = some true ∧
     needs_generation (RegistryState.mk [] [] [("m.f", true)]) "m.f" (some "h1") =
       (true, RegistryState.mk [] [] [("m.f", true)])) := by
  refine ⟨⟨rfl, rfl, ?_⟩, ⟨rfl, ?_⟩⟩
  · exact c3_needs_generation_contract.2.1 RegistryState.empty "m.f" (some "h0") rfl rfl
  · exact c3_needs_generation_contract.1 (RegistryState.mk [] [] [("m.f", true)])
      "m.f" (some "h1") true rfl

/-- Storing an implementation always makes it resolvable, via the
`_implementations` side table consulted first by `get_implementation`. -/
theorem store_implementation_get (reg : RegistryState) (full_name implementation : String) :
    get_implementation (store_implementation reg full_name implementation) full_name
      = some implementation := by
  simp [get_implementation, store_implementation, alookup_ainsert_self]

/-- Claim C10: `store_implementation` followed by `get_implementation`
returns the stored text, with no registration required — the side table is
independent of the registry (storing under an unregistered name leaves the
registry untouched), and in particular an implementation pushed by
`cache_load` from a persisted record is resolvable afterwards. -/
theorem c10_store_then_get :
    (∀ (reg : RegistryState) (full_name implementation : String),
        get_implementation (store_implementation reg full_name implementation) full_name
          = some implementation) ∧
    (∀ (reg : RegistryState) (full_name implementation : String),
        alookup reg.registry full_name = none →
        (store_implementation reg full_name implementation).registry = reg.registry) ∧
    (∀ (st : SystemState) (module_name full_name impl : String) (rec : CacheRecord),
        st.loaded.contains module_name = false →
        alookup st.files (module_name_to_cache_file module_name) = some [(full_name, rec)] →
        rec.implementation = some impl →
        get_implementation (cache_load st module_name).reg full_name = some impl) := by
  refine ⟨store_implementation_get, ?_, ?_⟩
  · intro reg full_name implementation h
    simp [store_implementation, h]
  · intro st module_name full_name impl rec h1 h2 h3
    have h1' : ¬ module_name ∈ st.loaded := by simpa using h1
    simp [cache_load, h1', h2, h3, store_implementation_get]

/-- Witness for C10: a concrete store under a name absent from the registry,
and a concrete cache load pushing a persisted implementation. -/
theorem c10_store_then_get_witness :
    (alookup (RegistryState.empty).registry "m.g" = none ∧
     get_implementation (store_implementation RegistryState.empty "m.g" "return 7") "m.g"
       = some "return 7" ∧
     (store_implementation RegistryState.empty "m.g" "return 7").registry = [] ∧
     get_implementation
       (cache_load
         (SystemState.mk RegistryState.empty [] []
           [("m.json", [("m.g", CacheRecord.mk (some "h") (some "return 7"))])])
         "m").reg "m.g" = some "return 7") := by
  refine ⟨rfl, c10_store_then_get.1 RegistryState.empty "m.g" "return 7", ?_, ?_⟩
  · exact c10_store_then_get.2.1 RegistryState.empty "m.g" "return 7" rfl
  · exact c10_store_then_get.2.2
      (SystemState.mk RegistryState.empty [] []
        [("m.json", [("m.g", CacheRecord.mk (some "h") (some "return 7"))])])
      "m" "m.g" "return 7" (CacheRecord.mk (some "h") (some "return 7")) rfl rfl rfl

/-! ### C7: clear_module -/

/-- The registry state of the C7 counterexample: one declared function in
namespace `ns` with a stored implementation and a memo, and `ns` marked
cache-loaded. -/
def c7_meta : FunctionMetadata :=
  { name := "f", module := "ns", source := "src", docstring := "d",
    signature := "(fn)", param_names := ["fn"], frozen := false,
    implementation := some "return 1" }

/-- A system state with namespace `ns` populated and cache-loaded. -/
def c7_st : SystemState :=
  { reg := { registry := [("ns.f", c7_meta)],
             implementations := [("ns.f", "return 1")],
             needsGen := [("ns.f", false)] },
    cache := [("ns.f", CacheRecord.mk (some "h") (some "return 1"))],
    loaded := ["ns"], files := [] }

/-- Counterexample to claim C7 as stated: clearing namespace `ns` (the
reload step invokes only `FunctionRegistry.clear_module`) removes the
registry entry, the stored implementation and the memo, but the
cache-loaded flag for `ns` — and the in-memory cache record — survive, so
the claim's "removes ... the cache-loaded flag whose full name is prefixed
by that namespace" is false at this input. -/
theorem c7_counterexample :
    (clear_module_sys c7_st "ns").reg.registry = [] ∧
    (clear_module_sys c7_st "ns").reg.implementations = [] ∧
    (clear_module_sys c7_st "ns").reg.needsGen = [] ∧
    (clear_module_sys c7_st "ns").loaded = ["ns"] ∧
    (clear_module_sys c7_st "ns").cache
      = [("ns.f", CacheRecord.mk (some "h") (some "return 1"))] :=
  ⟨rfl, rfl, rfl, rfl, rfl⟩

/-- Claim C7 (amended): clearing a namespace removes every registry entry
whose declared module starts with the namespace string, and every stored
implementation and memoized needs-generation decision whose full name
starts with the namespace string, leaving lookups outside those sets
unchanged; the in-memory cache, the persisted partitions and the
cache-loaded flags are not touched. -/
theorem c7_clear_namespace :
    (∀ (st : SystemState) (ns : String),
        ∀ p ∈ (clear_module_sys st ns).reg.registry, py_startswith p.2.module ns = false) ∧
    (∀ (st : SystemState) (ns k : String) (m : FunctionMetadata),
        alookup st.reg.registry k = some m → py_startswith m.module ns = false →
        alookup (clear_module_sys st ns).reg.registry k = some m) ∧
    (∀ (st : SystemState) (ns k : String), py_startswith k ns = true →
        alookup (clear_module_sys st ns).reg.implementations k = none) ∧
    (∀ (st : SystemState) (ns k : String), py_startswith k ns = false →
        alookup (clear_module_sys st ns).reg.implementations k
          = alookup st.reg.implementations k) ∧
    (∀ (st : SystemState) (ns k : String), py_startswith k ns = true →
        alookup (clear_module_sys st ns).reg.needsGen k = none) ∧
    (∀ (st : SystemState) (ns k : String), py_startswith k ns = false →
        alookup (clear_module_sys st ns).reg.needsGen k = alookup st.reg.needsGen k) ∧
    (∀ (st : SystemState) (ns : String),
        (clear_module_sys st ns).loaded = st.loaded ∧
        (clear_module_sys st ns).cache = st.cache ∧
        (clear_module_sys st ns).files = st.files) := by
  refine ⟨?_, ?_, ?_, ?_, ?_, ?_, fun st ns => ⟨rfl, rfl, rfl⟩⟩
  · intro st ns p hp
    have := (List.mem_filter.mp hp).2
    simpa using this
  · intro st ns k m hl hm
    exact alookup_filter_keep st.reg.registry _ k m hl (by simp [hm])
  · intro st ns k h
    have := alookup_filter_key st.reg.implementations (fun s => !(py_startswith s ns)) k
    simpa [clear_module_sys, clear_module, h] using this
  · intro st ns k h
    have := alookup_filter_key st.reg.implementations (fun s => !(py_startswith s ns)) k
    simpa [clear_module_sys, clear_module, h] using this
  · intro st ns k h
    have := alookup_filter_key st.reg.needsGen (fun s => !(py_startswith s ns)) k
    simpa [clear_module_sys, clear_module, h] using this
  · intro st ns k h
    have := alookup_filter_key st.reg.needsGen (fun s => !(py_startswith s ns)) k
    simpa [clear_module_sys, clear_module, h] using this

/-- Witness for C7 (amended) at a concrete state: the entry of namespace
`other` survives a clear of `ns` while the implementation of `ns.f` is
removed. -/
theorem c7_clear_namespace_witness :
    (alookup c7_st.reg.registry "ns.f" = some c7_meta ∧
     py_startswith c7_meta.module "other" = false ∧
     alookup (clear_module_sys c7_st "other").reg.registry "ns.f" = some c7_meta) ∧
    (py_startswith "ns.f" "ns" = true ∧
     alookup (clear_module_sys c7_st "ns").reg.implementations "ns.f" = none) := by
  refine ⟨⟨rfl, rfl, ?_⟩, ⟨rfl, ?_⟩⟩
  · exact c7_clear_namespace.2.1 c7_st "other" "ns.f" c7_meta rfl rfl
  · exact c7_clear_namespace.2.2.1 c7_st "ns" "ns.f" rfl

/-! ### C8: cache_save partitioning -/

/-- Prefix transfer: starting with `ns ++ "."` implies starting with `ns`. -/
theorem py_startswith_dot (s ns : String) (h : py_startswith s (ns ++ ".") = true) :
    py_startswith s ns = true := by
  simp only [py_startswith, List.isPrefixOf_iff_prefix] at h ⊢
  refine List.IsPrefix.trans ?_ h
  rw [String.data_append]
  exact List.prefix_append ns.data ".".data

/-- A cache state holding records of the distinct namespaces `a_b` and
`a.b`, whose cache files collide (`module_name_to_cache_file` maps both to
`a_b.json`), with `a_b`'s partition already persisted. -/
def c8_st : SystemState :=
  { reg := RegistryState.empty,
    cache := [("a_b.f", CacheRecord.mk (some "h1") (some "i1")),
              ("a.b.g", CacheRecord.mk (some "h2") (some "i2"))],
    loaded := [], files := [("a_b.json", [("a_b.f", CacheRecord.mk (some "h1") (some "i1"))])] }

/-- Counterexample to claim C8 as stated: namespaces `a.b` and `a_b` are
distinct, but both map to the partition file `a_b.json`; saving namespace
`a.b` replaces namespace `a_b`'s persisted partition (its record
disappears and a record of namespace `a.b` is written into it), so "no
other namespace's partition is modified by the save" fails at this input. -/
theorem c8_counterexample :
    module_name_to_cache_file "a.b" = module_name_to_cache_file "a_b" ∧
    alookup c8_st.files (module_name_to_cache_file "a_b")
      = some [("a_b.f", CacheRecord.mk (some "h1") (some "i1"))] ∧
    alookup (cache_save c8_st "a.b").files (module_name_to_cache_file "a_b")
      = some [("a.b.g", CacheRecord.mk (some "h2") (some "i2"))] :=
  ⟨rfl, rfl, rfl⟩

/-- Claim C8 (amended): saving a namespace writes, into the partition file
derived from the namespace name, exactly the in-memory records whose full
name starts with the namespace followed by a dot (hence prefixed by the
namespace); every partition under a different file name is unmodified —
distinct namespaces can share a partition only through the dot-to-underscore
file-name collision exhibited by the counterexample — and the in-memory
state is unchanged. -/
theorem c8_save_partition :
    (∀ (st : SystemState) (ns : String) (part : List (String × CacheRecord)),
        alookup (cache_save st ns).files (module_name_to_cache_file ns) = some part →
        ∀ p ∈ part, py_startswith p.1 (ns ++ ".") = true ∧ py_startswith p.1 ns = true) ∧
    (∀ (st : SystemState) (ns file : String), file ≠ module_name_to_cache_file ns →
        alookup (cache_save st ns).files file = alookup st.files file) ∧
    (∀ (st : SystemState) (ns : String),
        (cache_save st ns).cache = st.cache ∧ (cache_save st ns).reg = st.reg ∧
        (cache_save st ns).loaded = st.loaded) := by
  refine ⟨?_, ?_, fun st ns => ⟨rfl, rfl, rfl⟩⟩
  · intro st ns part hpart p hp
    have hself := alookup_ainsert_self st.files (module_name_to_cache_file ns)
      (st.cache.filter (fun p => py_startswith p.1 (ns ++ ".")))
    rw [show (cache_save st ns).files
          = ainsert st.files (module_name_to_cache_file ns)
              (st.cache.filter (fun p => py_startswith p.1 (ns ++ "."))) from rfl] at hpart
    rw [hself] at hpart
    have hpartEq : part = st.cache.filter (fun p => py_startswith p.1 (ns ++ ".")) :=
      (Option.some.injEq _ _ ▸ hpart).symm
    subst hpartEq
    have hmem := (List.mem_filter.mp hp).2
    exact ⟨hmem, py_startswith_dot p.1 ns hmem⟩
  · intro st ns file h
    exact alookup_ainsert_ne st.files (module_name_to_cache_file ns) file _ h

/-- Witness for C8 (amended) at a concrete state: the record written when
saving `a.b` starts with `a.b.`, and a partition under a different file
name survives. -/
theorem c8_save_partition_witness :
    (alookup (cache_save c8_st "a.b").files (module_name_to_cache_file "a.b")
       = some [("a.b.g", CacheRecord.mk (some "h2") (some "i2"))] ∧
     py_startswith "a.b.g" "a.b." = true ∧ py_startswith "a.b.g" "a.b" = true) ∧
    ("zzz.json" ≠ module_name_to_cache_file "a.b" ∧
     alookup (cache_save c8_st "a.b").files "zzz.json" = alookup c8_st.files "zzz.json") := by
  refine ⟨⟨rfl, ?_⟩, ⟨by decide, ?_⟩⟩
  · have h := c8_save_partition.1 c8_st "a.b"
      [("a.b.g", CacheRecord.mk (some "h2") (some "i2"))] rfl
      ("a.b.g", CacheRecord.mk (some "h2") (some "i2")) (by simp)
    simpa using h
  · exact c8_save_partition.2.1 c8_st "a.b" "zzz.json" (by decide)

/-! ### C9: dispatch with no resolvable implementation -/

/-- Claim C9: when no implementation resolves — after loading the owning
module's cache and, still unresolved, the parent namespace's cache one level
up — the dispatcher raises the `RuntimeError` carrying the remediation
guidance, and no implementation body is executed (the result is the `error`
outcome, never the `executed` one). -/
theorem c9_no_implementation_error :
    ∀ (st : SystemState) (module_name func_name : String) (sig_param_names : List String),
      py_truthy (get_implementation (cache_load st module_name).reg
        (module_name ++ "." ++ func_name)) = false →
      py_truthy (get_implementation
        (cache_load (cache_load st module_name) (parent_module_of module_name)).reg
        (module_name ++ "." ++ func_name)) = false →
      (pararun_invoke st module_name func_name sig_param_names).2 =
        DispatchResult.error ("No implementation available for "
          ++ (module_name ++ "." ++ func_name)
          ++ ". Run \x27make process\x27 to generate an implementation.") := by
  intro st module_name func_name sig_param_names h1 h2
  by_cases hp : parent_module_of module_name != ""
  · rcases hI : get_implementation
        (cache_load (cache_load st module_name) (parent_module_of module_name)).reg
        (module_name ++ "." ++ func_name) with _ | s
    · simp [pararun_invoke, h1, hp, hI]
    · have hs : (s == "") = true := by
        rw [hI] at h2
        simpa [py_truthy] using h2
      simp [pararun_invoke, h1, hp, hI, hs]
  · rcases hI : get_implementation (cache_load st module_name).reg
        (module_name ++ "." ++ func_name) with _ | s
    · simp [pararun_invoke, h1, hp, hI]
    · have hs : (s == "") = true := by
        rw [hI] at h1
        simpa [py_truthy] using h1
      simp [pararun_invoke, h1, hp, hI, hs]

/-- Witness for C9: dispatching `a.b.f` in an empty state (no cache files,
nothing registered) raises the remediation error. -/
theorem c9_no_implementation_error_witness :
    py_truthy (get_implementation
      (cache_load (SystemState.mk RegistryState.empty [] [] []) "a.b").reg "a.b.f") = false ∧
    (pararun_invoke (SystemState.mk RegistryState.empty [] [] []) "a.b" "f" ["fn", "x"]).2 =
      DispatchResult.error ("No implementation available for "
        ++ "a.b.f" ++ ". Run \x27make process\x27 to generate an implementation.") := by
  constructor
  · rfl
  · have h := c9_no_implementation_error (SystemState.mk RegistryState.empty [] [] [])
      "a.b" "f" ["fn", "x"] rfl rfl
    simpa using h

/-! ### C6: the verification harness -/

/-- Claim C6: `run_test` reports pass exactly when handing the assembled
harness source — the candidate bound to the declared parameters excluding
the self-reference parameter `fn`, with a stand-in `fn` that re-enters the
candidate recursively, followed by the extracted assertion block — to the
interpreter completes without raising; any raise (assertion failure or
runtime fault) yields `pass = false` together with the non-empty
`traceback.format_exc()` diagnostic; and the self-reference parameter is
excluded from the parameters the candidate is bound to. -/
theorem c6_run_test :
    (∀ (pyexec : PyExec) (pn : List String) (implementation test_code : String),
        run_test pyexec pn implementation test_code = (true, none) ↔
          pyexec (run_test_source pn implementation test_code) = ExecOutcome.ok) ∧
    (∀ (pyexec : PyExec) (pn : List String) (implementation test_code exc : String),
        pyexec (run_test_source pn implementation test_code) = ExecOutcome.raised exc →
        run_test pyexec pn implementation test_code = (false, some (format_exc exc)) ∧
          format_exc exc ≠ "") ∧
    (∀ pn : List String, "fn" ∉ visible_params pn) := by
  have hlen : ("Traceback (most recent call last):\n").length = 35 := by rfl
  refine ⟨?_, ?_, ?_⟩
  · intro pyexec pn implementation test_code
    cases h : pyexec (run_test_source pn implementation test_code) <;> simp [run_test, h]
  · intro pyexec pn implementation test_code exc h
    refine ⟨by simp [run_test, h], ?_⟩
    intro hempty
    have hl := congrArg String.length hempty
    rw [format_exc, String.length_append, hlen] at hl
    simp at hl
  · intro pn
    simp [visible_params]

/-- Witness for C6: a concrete interpreter that accepts everything makes a
concrete test pass; one that raises an `AssertionError` makes it fail with
the non-empty traceback text. -/
theorem c6_run_test_witness :
    ((fun _ => ExecOutcome.ok : PyExec)
        (run_test_source ["fn", "n"] "return n * 2" "assert fn(3) == 6") = ExecOutcome.ok ∧
     run_test (fun _ => ExecOutcome.ok) ["fn", "n"] "return n * 2" "assert fn(3) == 6"
        = (true, none)) ∧
    ((fun _ => ExecOutcome.raised "AssertionError" : PyExec)
        (run_test_source ["fn", "n"] "return n * 3" "assert fn(3) == 6")
        = ExecOutcome.raised "AssertionError" ∧
     run_test (fun _ => ExecOutcome.raised "AssertionError") ["fn", "n"]
        "return n * 3" "assert fn(3) == 6"
        = (false, some (format_exc "AssertionError")) ∧
     format_exc "AssertionError" ≠ "") := by
  refine ⟨⟨rfl, ?_⟩, ⟨rfl, ?_, ?_⟩⟩
  · exact (c6_run_test.1 (fun _ => ExecOutcome.ok) ["fn", "n"]
      "return n * 2" "assert fn(3) == 6").mpr rfl
  · exact (c6_run_test.2.1 (fun _ => ExecOutcome.raised "AssertionError") ["fn", "n"]
      "return n * 3" "assert fn(3) == 6" "AssertionError" rfl).1
  · exact (c6_run_test.2.1 (fun _ => ExecOutcome.raised "AssertionError") ["fn", "n"]
      "return n * 3" "assert fn(3) == 6" "AssertionError" rfl).2

/-! ### C4: frozen functions -/

/-- C4 counterexample environment: an always-succeeding oracle and an
interpreter under which every candidate passes. -/
def c4_env : GenEnv :=
  { oracle := fun _ _ => (true, "return 2"),
    pyexec := fun _ => ExecOutcome.ok,
    extract_test_code := fun _ => "" }

/-- C4 counterexample registry, built through the public operations:
`ns.f` is declared non-frozen, `needs_generation` is asked once (memoizing
`true`), the function is re-declared frozen — the re-declaration the
specification itself allows — and an implementation is stored. -/
def c4_reg : RegistryState :=
  store_implementation
    (register
      ((needs_generation
        (register RegistryState.empty "f" "ns" "src" "doc" "(fn, n)" ["fn", "n"] false)
        "ns.f" none).2)
      "f" "ns" "src" "doc" "(fn, n)" ["fn", "n"] true)
    "ns.f" "return 1"

/-- The metadata the registry currently holds for `ns.f`: frozen, with a
stored implementation. -/
def c4_meta : FunctionMetadata :=
  { name := "f", module := "ns", source := "src", docstring := "doc",
    signature := "(fn, n)", param_names := ["fn", "n"], frozen := true,
    implementation := some "return 1" }

/-- The C4 counterexample state: the frozen declaration with a stale
`needs_generation == true` memo from its earlier non-frozen declaration,
plus a cache record. -/
def c4_st : SystemState :=
  { reg := c4_reg,
    cache := [("ns.f", CacheRecord.mk (some "stale") (some "return 1"))],
    loaded := ["ns"], files := [] }

/-- Counterexample to claim C4 as stated: `ns.f` is declared frozen and has
a previously stored implementation, yet `needs_generation` returns `true`
(the memo of the earlier non-frozen declaration survives the
re-declaration) and a processing pass invokes the oracle for it. -/
theorem c4_counterexample :
    alookup c4_st.reg.registry "ns.f" = some c4_meta ∧
    c4_meta.frozen = true ∧
    get_implementation c4_st.reg "ns.f" = some "return 1" ∧
    (needs_generation c4_st.reg "ns.f" (some "stale")).1 = true ∧
    (process_function c4_env c4_st c4_meta).calls = 1 :=
  ⟨rfl, rfl, rfl, rfl, rfl⟩

/-- Claim C4 (amended): a function whose registry entry is frozen is never
regenerated — `needs_generation` returns `false` for any cached hash
(matching or not) and a processing pass makes no oracle call for it —
provided no stale `true` memo from an earlier non-frozen declaration of the
same name remains (the memo is absent or `false`). -/
theorem c4_frozen_never_regenerates :
    ∀ (env : GenEnv) (st : SystemState) (m : FunctionMetadata) (ch : Option String),
      alookup st.reg.registry m.get_full_name = some m → m.frozen = true →
      alookup st.reg.needsGen m.get_full_name ≠ some true →
      (needs_generation st.reg m.get_full_name ch).1 = false ∧
      (process_function env st m).calls = 0 := by
  intro env st m ch hreg hfrozen hmemo
  have hng : ∀ ch' : Option String, (needs_generation st.reg m.get_full_name ch').1 = false := by
    intro ch'
    cases hmem : alookup st.reg.needsGen m.get_full_name with
    | some b =>
      cases b with
      | false => simp [needs_generation, hmem]
      | true => exact absurd hmem hmemo
    | none => cases ch' <;> simp [needs_generation, hmem, hreg, hfrozen]
  refine ⟨hng ch, ?_⟩
  rcases hc : cache_get st m.get_full_name with _ | entry <;>
    simp [process_function, hc, hng]

/-- Witness for C4 (amended): a concrete frozen declaration with a stored
implementation and a cache hash different from the current hash is not
regenerated. -/
theorem c4_frozen_never_regenerates_witness :
    (alookup
      (SystemState.mk
        (RegistryState.mk [("ns.f", c4_meta)] [("ns.f", "return 1")] [])
        [("ns.f", CacheRecord.mk (some "stale") (some "return 1"))] ["ns"] []).reg.registry
      c4_meta.get_full_name = some c4_meta ∧
     c4_meta.frozen = true ∧
     (needs_generation
        (SystemState.mk
          (RegistryState.mk [("ns.f", c4_meta)] [("ns.f", "return 1")] [])
          [("ns.f", CacheRecord.mk (some "stale") (some "return 1"))] ["ns"] []).reg
        c4_meta.get_full_name (some "stale")).1 = false ∧
     (process_function c4_env
        (SystemState.mk
          (RegistryState.mk [("ns.f", c4_meta)] [("ns.f", "return 1")] [])
          [("ns.f", CacheRecord.mk (some "stale") (some "return 1"))] ["ns"] [])
        c4_meta).calls = 0) := by
  refine ⟨rfl, rfl, ?_, ?_⟩
  · exact (c4_frozen_never_regenerates c4_env
      (SystemState.mk (RegistryState.mk [("ns.f", c4_meta)] [("ns.f", "return 1")] [])
        [("ns.f", CacheRecord.mk (some "stale") (some "return 1"))] ["ns"] [])
      c4_meta (some "stale") rfl rfl (by simp [alookup])).1
  · exact (c4_frozen_never_regenerates c4_env
      (SystemState.mk (RegistryState.mk [("ns.f", c4_meta)] [("ns.f", "return 1")] [])
        [("ns.f", CacheRecord.mk (some "stale") (some "return 1"))] ["ns"] [])
      c4_meta (some "stale") rfl rfl (by simp [alookup])).2

/-! ### Retry-loop lemmas (Processor._generate_and_test) -/

/-- The retry loop makes at most `attempt + fuel` oracle calls. -/
theorem generate_and_test_go_calls_le (env : GenEnv) (m : FunctionMetadata)
    (test_code : String) :
    ∀ (fuel attempt : Nat) (fb : Option String) (reg : RegistryState),
      (generate_and_test_go env m test_code fuel attempt fb reg).calls ≤ attempt + fuel := by
  intro fuel
  induction fuel with
  | zero => intro attempt fb reg; simp [generate_and_test_go]
  | succ n ih =>
    intro attempt fb reg
    rw [generate_and_test_go]
    dsimp only
    split
    · split
      · simp
      · exact le_trans (ih (attempt + 1) _ reg) (by omega)
    · simp

/-- A first candidate that passes verification ends the loop after one
oracle call, storing that candidate. -/
theorem gat_first_pass (env : GenEnv) (m : FunctionMetadata) (test_code : String)
    (reg : RegistryState) (i0 : String)
    (h1 : env.oracle 0 (gen_req m test_code none) = (true, i0))
    (h2 : (run_test env.pyexec m.param_names i0 test_code).1 = true) :
    generate_and_test env m test_code reg =
      { reg := store_implementation reg m.get_full_name i0,
        calls := 1, ok := true, error_message := none } := by
  simp [generate_and_test, generate_and_test_go, h1, h2, FunctionMetadata.get_full_name]

/-- A failing first candidate followed by a passing second one ends the
loop after two oracle calls, storing the second candidate; the second call
receives the first attempt's diagnostic as feedback. -/
theorem gat_retry_pass (env : GenEnv) (m : FunctionMetadata) (test_code : String)
    (reg : RegistryState) (i0 i1 : String) (d0 : Option String)
    (h1 : env.oracle 0 (gen_req m test_code none) = (true, i0))
    (h2 : run_test env.pyexec m.param_names i0 test_code = (false, d0))
    (h3 : env.oracle 1 (gen_req m test_code d0) = (true, i1))
    (h4 : (run_test env.pyexec m.param_names i1 test_code).1 = true) :
    generate_and_test env m test_code reg =
      { reg := store_implementation reg m.get_full_name i1,
        calls := 2, ok := true, error_message := none } := by
  simp [generate_and_test, generate_and_test_go, h1, h2, h3, h4,
    FunctionMetadata.get_full_name]

/-- An oracle failure on the first call aborts the whole function after
that single call. -/
theorem gat_oracle_fail_first (env : GenEnv) (m : FunctionMetadata) (test_code : String)
    (reg : RegistryState) (junk : String)
    (h1 : env.oracle 0 (gen_req m test_code none) = (false, junk)) :
    generate_and_test env m test_code reg =
      { reg := reg, calls := 1, ok := false,
        error_message := some "Failed to generate implementation after 1 attempts" } := by
  simp [generate_and_test, generate_and_test_go, h1]
  with_unfolding_all rfl

/-- An oracle failure on the second call (after one failed verification)
aborts after exactly two calls, with no implementation stored. -/
theorem gat_oracle_fail_second (env : GenEnv) (m : FunctionMetadata) (test_code : String)
    (reg : RegistryState) (i0 junk : String) (d0 : Option String)
    (h1 : env.oracle 0 (gen_req m test_code none) = (true, i0))
    (h2 : run_test env.pyexec m.param_names i0 test_code = (false, d0))
    (h3 : env.oracle 1 (gen_req m test_code d0) = (false, junk)) :
    generate_and_test env m test_code reg =
      { reg := reg, calls := 2, ok := false,
        error_message := some "Failed to generate implementation after 2 attempts" } := by
  simp [generate_and_test, generate_and_test_go, h1, h2, h3]
  with_unfolding_all rfl

/-- Three failing candidates exhaust the budget: exactly three oracle
calls, failure, and the surfaced diagnostic is the last attempt's; each
failed attempt's diagnostic was the feedback of the following call. -/
theorem gat_exhaust (env : GenEnv) (m : FunctionMetadata) (test_code : String)
    (reg : RegistryState) (i0 i1 i2 : String) (d0 d1 d2 : Option String)
    (h1 : env.oracle 0 (gen_req m test_code none) = (true, i0))
    (h2 : run_test env.pyexec m.param_names i0 test_code = (false, d0))
    (h3 : env.oracle 1 (gen_req m test_code d0) = (true, i1))
    (h4 : run_test env.pyexec m.param_names i1 test_code = (false, d1))
    (h5 : env.oracle 2 (gen_req m test_code d1) = (true, i2))
    (h6 : run_test env.pyexec m.param_names i2 test_code = (false, d2)) :
    generate_and_test env m test_code reg =
      { reg := reg, calls := 3, ok := false, error_message := d2 } := by
  simp [generate_and_test, generate_and_test_go, h1, h2, h3, h4, h5, h6]

/-- Claim C2: per function needing generation, one pass makes at most 3
oracle calls; it stops at the first candidate passing verification and
stores exactly that candidate in the registry and (when non-empty, which
every candidate accepted by the real harness is) in the cache under the
current specification hash; an oracle failure aborts the function as a
reported failure; exhausting all 3 attempts is a reported failure surfacing
the last attempt's diagnostic; the diagnostic of each failed attempt is the
feedback of the next oracle call, and attempt 1 receives no feedback. -/
theorem c2_retry_protocol :
    (∀ (env : GenEnv) (m : FunctionMetadata) (test_code : String) (reg : RegistryState),
        (generate_and_test env m test_code reg).calls ≤ 3) ∧
    (∀ (env : GenEnv) (m : FunctionMetadata) (test_code : String) (reg : RegistryState)
        (i0 : String),
        env.oracle 0 (gen_req m test_code none) = (true, i0) →
        (run_test env.pyexec m.param_names i0 test_code).1 = true →
        generate_and_test env m test_code reg =
          { reg := store_implementation reg m.get_full_name i0,
            calls := 1, ok := true, error_message := none }) ∧
    (∀ (env : GenEnv) (m : FunctionMetadata) (test_code : String) (reg : RegistryState)
        (i0 i1 : String) (d0 : Option String),
        env.oracle 0 (gen_req m test_code none) = (true, i0) →
        run_test env.pyexec m.param_names i0 test_code = (false, d0) →
        env.oracle 1 (gen_req m test_code d0) = (true, i1) →
        (run_test env.pyexec m.param_names i1 test_code).1 = true →
        generate_and_test env m test_code reg =
          { reg := store_implementation reg m.get_full_name i1,
            calls := 2, ok := true, error_message := none }) ∧
    (∀ (env : GenEnv) (m : FunctionMetadata) (test_code : String) (reg : RegistryState)
        (junk : String),
        env.oracle 0 (gen_req m test_code none) = (false, junk) →
        generate_and_test env m test_code reg =
          { reg := reg, calls := 1, ok := false,
            error_message := some "Failed to generate implementation after 1 attempts" }) ∧
    (∀ (env : GenEnv) (m : FunctionMetadata) (test_code : String) (reg : RegistryState)
        (i0 junk : String) (d0 : Option String),
        env.oracle 0 (gen_req m test_code none) = (true, i0) →
        run_test env.pyexec m.param_names i0 test_code = (false, d0) →
        env.oracle 1 (gen_req m test_code d0) = (false, junk) →
        generate_and_test env m test_code reg =
          { reg := reg, calls := 2, ok := false,
            error_message := some "Failed to generate implementation after 2 attempts" }) ∧
    (∀ (env : GenEnv) (m : FunctionMetadata) (test_code : String) (reg : RegistryState)
        (i0 i1 i2 : String) (d0 d1 d2 : Option String),
        env.oracle 0 (gen_req m test_code none) = (true, i0) →
        run_test env.pyexec m.param_names i0 test_code = (false, d0) →
        env.oracle 1 (gen_req m test_code d0) = (true, i1) →
        run_test env.pyexec m.param_names i1 test_code = (false, d1) →
        env.oracle 2 (gen_req m test_code d1) = (true, i2) →
        run_test env.pyexec m.param_names i2 test_code = (false, d2) →
        generate_and_test env m test_code reg =
          { reg := reg, calls := 3, ok := false, error_message := d2 }) ∧
    (∀ (env : GenEnv) (st : SystemState) (m : FunctionMetadata) (i0 i1 : String)
        (d0 : Option String),
        alookup st.reg.needsGen m.get_full_name = none →
        alookup st.reg.registry m.get_full_name = some m →
        m.frozen = false →
        cache_get st m.get_full_name = none →
        env.oracle 0 (gen_req m (env.extract_test_code m.source) none) = (true, i0) →
        run_test env.pyexec m.param_names i0 (env.extract_test_code m.source) = (false, d0) →
        env.oracle 1 (gen_req m (env.extract_test_code m.source) d0) = (true, i1) →
        (run_test env.pyexec m.param_names i1 (env.extract_test_code m.source)).1 = true →
        (i1 == "") = false →
        (process_function env st m).calls = 2 ∧ (process_function env st m).ok = true ∧
        get_implementation (process_function env st m).st.reg m.get_full_name = some i1 ∧
        cache_get (process_function env st m).st m.get_full_name =
          some (CacheRecord.mk (some (get_function_hash m.docstring m.signature)) (some i1))) := by
  refine ⟨?_, gat_first_pass, gat_retry_pass, gat_oracle_fail_first,
    gat_oracle_fail_second, gat_exhaust, ?_⟩
  · intro env m test_code reg
    exact generate_and_test_go_calls_le env m test_code 3 0 none reg
  · intro env st m i0 i1 d0 hmem hreg hfroz hcache h1 h2 h3 h4 hne
    have hc2 : alookup st.cache m.get_full_name = none := hcache
    have hng : needs_generation st.reg m.get_full_name none =
        (true, { st.reg with needsGen := ainsert st.reg.needsGen m.get_full_name true }) := by
      simp [needs_generation, hmem, hreg, hfroz]
    have hgat := gat_retry_pass env m (env.extract_test_code m.source)
      { st.reg with needsGen := ainsert st.reg.needsGen m.get_full_name true }
      i0 i1 d0 h1 h2 h3 h4
    have hget := store_implementation_get
      { st.reg with needsGen := ainsert st.reg.needsGen m.get_full_name true }
      m.get_full_name i1
    refine ⟨?_, ?_, ?_, ?_⟩ <;>
      simp [process_function, cache_get, hc2, hng, hgat, hget, hne, cache_store,
        alookup_ainsert_self]

/-- The declared function of the C2 witness scenario. -/
def c2_meta : FunctionMetadata :=
  { name := "f", module := "m", source := "src", docstring := "Double the input",
    signature := "(fn, n)", param_names := ["fn", "n"], frozen := false,
    implementation := none }

/-- C2 witness environment: a stub oracle returning a wrong implementation
on its first call and a correct one afterwards, and an interpreter that
raises an `AssertionError` exactly on the harness source built from the
wrong implementation. -/
def c2_env : GenEnv :=
  { oracle := fun attempt _ =>
      if attempt == 0 then (true, "return n * 3") else (true, "return n * 2"),
    pyexec := fun src =>
      if src == run_test_source ["fn", "n"] "return n * 3" "assert fn(3) == 6" then
        ExecOutcome.raised "AssertionError"
      else ExecOutcome.ok,
    extract_test_code := fun _ => "assert fn(3) == 6" }

/-- The C2 witness state: `m.f` registered, nothing cached, no memo. -/
def c2_st : SystemState :=
  { reg := { registry := [("m.f", c2_meta)], implementations := [], needsGen := [] },
    cache := [], loaded := ["m"], files := [] }

set_option maxRecDepth 100000 in
/-- Witness for C2: with the stub environment, the retry loop succeeds
after exactly 2 oracle calls storing the second implementation, and the
processing pass stores it in the registry and the cache under the current
specification hash. -/
theorem c2_retry_protocol_witness :
    (c2_env.oracle 0 (gen_req c2_meta "assert fn(3) == 6" none) = (true, "return n * 3") ∧
     run_test c2_env.pyexec c2_meta.param_names "return n * 3" "assert fn(3) == 6"
       = (false, some (format_exc "AssertionError")) ∧
     c2_env.oracle 1 (gen_req c2_meta "assert fn(3) == 6"
       (some (format_exc "AssertionError"))) = (true, "return n * 2") ∧
     (run_test c2_env.pyexec c2_meta.param_names "return n * 2" "assert fn(3) == 6").1
       = true ∧
     generate_and_test c2_env c2_meta "assert fn(3) == 6" RegistryState.empty =
       { reg := store_implementation RegistryState.empty c2_meta.get_full_name "return n * 2",
         calls := 2, ok := true, error_message := none }) ∧
    ((process_function c2_env c2_st c2_meta).calls = 2 ∧
     (process_function c2_env c2_st c2_meta).ok = true ∧
     get_implementation (process_function c2_env c2_st c2_meta).st.reg c2_meta.get_full_name
       = some "return n * 2" ∧
     cache_get (process_function c2_env c2_st c2_meta).st c2_meta.get_full_name =
       some (CacheRecord.mk
         (some (get_function_hash c2_meta.docstring c2_meta.signature))
         (some "return n * 2"))) := by
  have h2 : run_test c2_env.pyexec c2_meta.param_names "return n * 3" "assert fn(3) == 6"
      = (false, some (format_exc "AssertionError")) := by with_unfolding_all rfl
  have h4 : (run_test c2_env.pyexec c2_meta.param_names "return n * 2"
      "assert fn(3) == 6").1 = true := by with_unfolding_all rfl
  refine ⟨⟨rfl, h2, rfl, h4, ?_⟩, ?_⟩
  · exact c2_retry_protocol.2.2.1 c2_env c2_meta "assert fn(3) == 6" RegistryState.empty
      "return n * 3" "return n * 2" (some (format_exc "AssertionError")) rfl h2 rfl h4
  · exact c2_retry_protocol.2.2.2.2.2.2 c2_env c2_st c2_meta
      "return n * 3" "return n * 2" (some (format_exc "AssertionError"))
      rfl rfl rfl rfl rfl h2 rfl h4 rfl

/-! ### C1: cache-hit short circuit and re-processing -/

/-- `store_implementation` never touches the needs-generation memos. -/
theorem store_implementation_needsGen (reg : RegistryState) (full_name implementation : String) :
    (store_implementation reg full_name implementation).needsGen = reg.needsGen := rfl

/-- A function whose memo says `false` is processed with zero oracle calls
and without touching the memo table. -/
theorem process_function_memo_false (env : GenEnv) (st : SystemState) (m : FunctionMetadata)
    (h : alookup st.reg.needsGen m.get_full_name = some false) :
    (process_function env st m).calls = 0 ∧
    (process_function env st m).st.reg.needsGen = st.reg.needsGen := by
  rcases hc : cache_get st m.get_full_name with _ | entry
  · have hng := needs_generation_memo_hit st.reg m.get_full_name none false h
    simp [process_function, hc, hng, store_implementation_needsGen]
  · have hng := needs_generation_memo_hit st.reg m.get_full_name entry.hash false h
    simp [process_function, hc, hng, store_implementation_needsGen]

/-- Folding the per-function step over functions whose memos all say
`false` adds no oracle calls and leaves the memo table unchanged. -/
theorem process_step_fold_calls (env : GenEnv) (fs : List FunctionMetadata) :
    ∀ acc : ProcResult,
      (∀ f ∈ fs, alookup acc.st.reg.needsGen f.get_full_name = some false) →
      (fs.foldl (process_step env) acc).calls = acc.calls ∧
      (fs.foldl (process_step env) acc).st.reg.needsGen = acc.st.reg.needsGen := by
  induction fs with
  | nil => intro acc _; simp
  | cons f rest ih =>
    intro acc h
    have hf := h f (by simp)
    have hpf := process_function_memo_false env acc.st f hf
    have hrest : ∀ g ∈ rest,
        alookup (process_step env acc f).st.reg.needsGen g.get_full_name = some false := by
      intro g hg
      have : (process_step env acc f).st.reg.needsGen = acc.st.reg.needsGen := by
        simp [process_step, hpf.2]
      rw [this]
      exact h g (by simp [hg])
    have := ih (process_step env acc f) hrest
    refine ⟨?_, ?_⟩
    · rw [List.foldl_cons, this.1]
      simp [process_step, hpf.1]
    · rw [List.foldl_cons, this.2]
      simp [process_step, hpf.2]

/-- `cache_save` does not change the oracle-call count or registry. -/
theorem cache_save_reg (st : SystemState) (module_name : String) :
    (cache_save st module_name).reg = st.reg := rfl

/-- Claim C1 (amended): (a) per function — when the registry entry for the
full name is the processed metadata, its needs-generation memo does not
(stalely) say `true`, and a cache record exists whose hash equals the
current specification hash, a processing pass makes no oracle call for it,
reports success, and adopts the cached implementation into the registry;
(b) per module — a processing pass over a namespace all of whose selected
functions carry a `false` needs-generation memo (the state a pass that only
hit the cache leaves behind, or a fresh pass after `clear_module` leaves
over an up-to-date cache) makes no oracle calls at all.  The unamended
claim fails on re-processing after a pass that generated, because the
memoized `true` decision survives (see the counterexample). -/
theorem c1_cache_hit_short_circuit :
    (∀ (env : GenEnv) (st : SystemState) (m : FunctionMetadata) (entry : CacheRecord),
        alookup st.reg.registry m.get_full_name = some m →
        alookup st.reg.needsGen m.get_full_name ≠ some true →
        cache_get st m.get_full_name = some entry →
        entry.hash = some m.get_hash →
        (process_function env st m).calls = 0 ∧
        (process_function env st m).ok = true ∧
        get_implementation (process_function env st m).st.reg m.get_full_name
          = some (entry.implementation.getD "")) ∧
    (∀ (env : GenEnv) (st : SystemState) (module_name : String),
        (∀ f ∈ module_functions (cache_load st module_name).reg module_name,
          alookup (cache_load st module_name).reg.needsGen f.get_full_name = some false) →
        (process_module env st module_name).calls = 0) := by
  constructor
  · intro env st m entry hreg hmemo hcache hhash
    have hb : (needs_generation st.reg m.get_full_name entry.hash).1 = false := by
      cases hmem : alookup st.reg.needsGen m.get_full_name with
      | some b =>
        cases b with
        | false => simp [needs_generation_memo_hit _ _ _ _ hmem]
        | true => exact absurd hmem hmemo
      | none =>
        by_cases hf : m.frozen
        · simp [needs_generation, hmem, hreg, hf]
        · rw [hhash]
          simp [needs_generation, hmem, hreg, hf]
    refine ⟨?_, ?_, ?_⟩ <;>
      simp [process_function, hcache, hb, store_implementation_get]
  · intro env st module_name h
    by_cases hempty : (module_functions (cache_load st module_name).reg module_name).isEmpty
    · simp [process_module, hempty]
    · have hfold := process_step_fold_calls env
        (module_functions (cache_load st module_name).reg module_name)
        { st := cache_load st module_name, ok := true, calls := 0 } h
      simp [process_module, hempty, hfold.1]

/-- Witness for C1 (amended): a concrete state whose cache record matches
the current hash is processed with zero oracle calls and the cached text is
adopted; a module whose only function carries a `false` memo is
re-processed with zero oracle calls. -/
theorem c1_cache_hit_short_circuit_witness :
    (alookup
        (SystemState.mk
          (RegistryState.mk [("m.f", c2_meta)] [] [])
          [("m.f", CacheRecord.mk
            (some (get_function_hash "Double the input" "(fn, n)")) (some "return n * 2"))]
          ["m"] []).reg.registry c2_meta.get_full_name = some c2_meta ∧
      (process_function c2_env
        (SystemState.mk
          (RegistryState.mk [("m.f", c2_meta)] [] [])
          [("m.f", CacheRecord.mk
            (some (get_function_hash "Double the input" "(fn, n)")) (some "return n * 2"))]
          ["m"] []) c2_meta).calls = 0 ∧
      get_implementation
        (process_function c2_env
          (SystemState.mk
            (RegistryState.mk [("m.f", c2_meta)] [] [])
            [("m.f", CacheRecord.mk
              (some (get_function_hash "Double the input" "(fn, n)")) (some "return n * 2"))]
            ["m"] []) c2_meta).st.reg c2_meta.get_full_name = some "return n * 2") ∧
    (process_module c2_env
        (SystemState.mk
          (RegistryState.mk [("m.f", c2_meta)] [] [("m.f", false)])
          [] ["m"] []) "m").calls = 0 := by
  have happ := c1_cache_hit_short_circuit.1 c2_env
    (SystemState.mk
      (RegistryState.mk [("m.f", c2_meta)] [] [])
      [("m.f", CacheRecord.mk
        (some (get_function_hash "Double the input" "(fn, n)")) (some "return n * 2"))]
      ["m"] []) c2_meta
    (CacheRecord.mk
      (some (get_function_hash "Double the input" "(fn, n)")) (some "return n * 2"))
    rfl (by simp [alookup]) rfl rfl
  refine ⟨⟨rfl, happ.1, ?_⟩, ?_⟩
  · have := happ.2.2
    simpa using this
  · exact c1_cache_hit_short_circuit.2 c2_env
      (SystemState.mk (RegistryState.mk [("m.f", c2_meta)] [] [("m.f", false)]) [] ["m"] [])
      "m" (by with_unfolding_all decide)

/-- The C1 counterexample environment: an always-succeeding stub oracle
(call counter observable through `calls`) and an interpreter accepting
every candidate. -/
def c1_env : GenEnv :=
  { oracle := fun _ _ => (true, "return n * 2"),
    pyexec := fun _ => ExecOutcome.ok,
    extract_test_code := fun _ => "assert fn(3) == 6" }

/-- The C1 counterexample initial state: `m.f` freshly declared, nothing
cached, nothing memoized. -/
def c1_st0 : SystemState :=
  { reg := { registry := [("m.f", c2_meta)], implementations := [], needsGen := [] },
    cache := [], loaded := [], files := [] }

/-- First processing pass over module `m`. -/
def c1_pass1 : ProcResult := process_module c1_env c1_st0 "m"

/-- Second processing pass over module `m`, same process, no change. -/
def c1_pass2 : ProcResult := process_module c1_env c1_pass1.st "m"

/-- Counterexample to claim C1 as stated: after a first pass that generated
(one oracle call) and cached the implementation under the current
specification hash, re-processing the same unchanged module in the same
process makes another oracle call — the memoized `needs_generation = true`
decision survives the successful generation, so the registered function
whose cache record hash equals the current specification hash is handed to
the oracle again instead of being short-circuited. -/
theorem c1_counterexample :
    c1_pass1.calls = 1 ∧ c1_pass1.ok = true ∧
    alookup c1_pass1.st.reg.registry "m.f"
      = some { c2_meta with implementation := some "return n * 2" } ∧
    (cache_get c1_pass1.st "m.f").bind (fun e => e.hash)
      = some (get_function_hash c2_meta.docstring c2_meta.signature) ∧
    alookup c1_pass1.st.reg.needsGen "m.f" = some true ∧
    c1_pass2.calls = 1 :=
  ⟨rfl, rfl, rfl, rfl, rfl, rfl⟩

end Parablock
